import Mathlib

/-
Verification of the `ghealth` package (utrack/gin-health), a Gin middleware
adapter for the gocraft/health monitoring toolkit.

The repository holds two near-duplicate implementations of the package:
`ghealth.go` (embedded below in namespace `Ghealth`) and a second, documented
variant (embedded in namespace `GhealthDoc`) whose `Health` middleware also
performs panic recovery.

Shallow-embedding conventions:
- objects of the external `gocraft/health` library (streams, sinks, jobs)
  become explicit records; `AddSink` / `EventErr` become pure updates;
- the fallible external constructor `health.NewStatsDSink` becomes an
  explicit function parameter returning `Option GoError` (`none` = success);
- the wall clock (`time.Now`, `time.Since`) becomes an explicit `now : Int`
  parameter counting nanoseconds;
- a gin `Context` becomes a record with a key/value store (`c.Set` prepends,
  lookups take the most recent binding, matching gin's map overwrite),
  the request URI and the written response status;
- Go panics become an explicit `Outcome` / `Except` value carrying the
  panicked value, so `MustGet` failures, unguarded type assertions and
  downstream panics are all observable;
- `fmt.Println` side effects become an accumulated `stdout` list.
-/

namespace GinHealth

/-- A Go `error` value, identified by its message. -/
structure GoError where
  msg : String
deriving DecidableEq, Repr

/-- `time.Minute` expressed in nanoseconds (a Go `time.Duration` is a count
of nanoseconds). -/
def timeMinute : Int := 60 * 1000000000

/-- A sink attached to a `health.Stream`: the stdout `WriterSink`, a StatsD
sink built from an address and an app name, or a JSON polling sink with its
poll interval, retention window and the address its HTTP server was started
on (`none` while `StartServer` has not been called). -/
inductive Sink where
  | writerStdout : Sink
  | statsd (addr : String) (appname : String) : Sink
  | jsonPolling (pollInterval : Int) (maxWindow : Int) (serverAddr : Option String) : Sink
deriving DecidableEq, Repr

/-- Whether a sink is the JSON polling sink. -/
def Sink.isJsonPolling : Sink → Bool
  | .jsonPolling _ _ _ => true
  | _ => false

/-- An error-class event emitted via `stream.EventErr(name, err)`. -/
structure ErrEvent where
  name : String
  err : GoError
deriving DecidableEq, Repr

/-- A `health.Stream`: its attached sinks and the error events emitted on it,
both in order. -/
structure Stream where
  sinks : List Sink
  events : List ErrEvent
deriving DecidableEq, Repr

/-- `health.NewStream()`: a fresh stream with no sinks and no events. -/
def Stream.new : Stream := { sinks := [], events := [] }

/-- `stream.AddSink(k)`. -/
def Stream.addSink (s : Stream) (k : Sink) : Stream :=
  { s with sinks := s.sinks ++ [k] }

/-- `stream.EventErr(name, e)`. -/
def Stream.eventErr (s : Stream) (name : String) (e : GoError) : Stream :=
  { s with events := s.events ++ [{ name := name, err := e }] }

/-- `stream.NewJob(name)`: a named job bound to its stream. -/
structure HealthJob where
  stream : Stream
  name : String
deriving DecidableEq, Repr

/-- A dynamically typed Go value as stored in a gin context or carried by a
panic: a `*health.Stream`, a `time.Time` (nanoseconds), an `error`, a plain
string, or the runtime's type-assertion failure value. -/
inductive GoVal where
  | stream (s : Stream)
  | time (t : Int)
  | err (e : GoError)
  | str (s : String)
  | typeAssertionError
deriving DecidableEq, Repr

/-- A gin `*Context`: its key/value store, the request URI and the response
status written so far (if any). -/
structure Ctx where
  keys : List (String × GoVal)
  requestURI : String
  status : Option Nat
deriving DecidableEq, Repr

/-- `c.Set(k, v)`: bind `k` to `v`; the new binding shadows older ones. -/
def Ctx.set (c : Ctx) (k : String) (v : GoVal) : Ctx :=
  { c with keys := (k, v) :: c.keys }

/-- `c.Get(k)` as an `Option`: the most recent binding of `k`. -/
def Ctx.get (c : Ctx) (k : String) : Option GoVal :=
  c.keys.lookup k

/-- The outcome of running a handler chain on a context: either it returns
normally with the final context state, or it panics, carrying the context
state at the panic together with the panicked value. -/
inductive Outcome where
  | normal (c : Ctx)
  | panicked (c : Ctx) (rval : GoVal)
deriving DecidableEq, Repr

/-- The observable result of `NewStream`: the returned stream, whether the
StatsD-sink constructor was invoked at all, and the lines printed to
stdout, in order. -/
structure NewStreamResult where
  stream : Stream
  statsdAttempted : Bool
  stdout : List String
deriving DecidableEq, Repr

namespace Ghealth

/-- `defaultStreamKey` from `ghealth.go`. -/
def defaultStreamKey : String := "github.com/utrack/gin-health"

/-- `defaultJobKey` from `ghealth.go`. -/
def defaultJobKey : String := "github.com/utrack/gin-health|job"

/-- `NewStream` from `ghealth.go`. `newStatsDSink` stands for the external
`health.NewStatsDSink`; `none` means the construction succeeded. The Go
function returns only a `*health.Stream` — there is no error return. -/
def NewStream (newStatsDSink : String → String → Option GoError)
    (statsd appname serversink : String) : NewStreamResult :=
  let stream := Stream.new
  let r1 : NewStreamResult :=
    if statsd ≠ "" then
      match newStatsDSink statsd appname with
      | some err =>
        { stream := (stream.addSink Sink.writerStdout).eventErr "new_statsd_sink" err,
          statsdAttempted := true,
          stdout := ["HEALTH: Adding stdout health sink..."] }
      | none =>
        { stream := stream.addSink (Sink.statsd statsd appname),
          statsdAttempted := true,
          stdout := ["HEALTH: Adding statsd health sink..."] }
    else
      { stream := stream.addSink Sink.writerStdout,
        statsdAttempted := false,
        stdout := ["HEALTH: Adding stdout health sink..."] }
  if serversink ≠ "" then
    { stream := r1.stream.addSink
        (Sink.jsonPolling timeMinute (5 * timeMinute) (some serversink)),
      statsdAttempted := r1.statsdAttempted,
      stdout := r1.stdout ++ ["HEALTH: Adding json health sink..."] }
  else r1

/-- `Health` from `ghealth.go` (no recovery): set the stream under the fixed
key, then hand control to the next handler; any downstream panic propagates
unchanged. -/
def Health (stream : Stream) (next : Ctx → Outcome) (c : Ctx) : Outcome :=
  next (c.set defaultStreamKey (GoVal.stream stream))

/-- `Job` from `ghealth.go`. `c.MustGet(defaultStreamKey)` panics with a
string when the key is absent; the unguarded `.(*health.Stream)` assertion
panics with a type-assertion error when the stored value is not a stream.
On success it returns the new job and records `time.Now()` under
`defaultJobKey`. -/
def Job (now : Int) (c : Ctx) (name : String) : Except GoVal (HealthJob × Ctx) :=
  match c.get defaultStreamKey with
  | none => .error (GoVal.str ("Key " ++ defaultStreamKey ++ " does not exist"))
  | some (GoVal.stream s) =>
    .ok ({ stream := s, name := name }, c.set defaultJobKey (GoVal.time now))
  | some _ => .error GoVal.typeAssertionError

/-- `TimeSince` from `ghealth.go`: `time.Since(t).Nanoseconds()`, with the
current wall-clock instant `now` made explicit. -/
def TimeSince (now : Int) (t : Int) : Int := now - t

end Ghealth

namespace GhealthDoc

/-- `defaultStreamKey` from the documented variant. -/
def defaultStreamKey : String := "github.com/utrack/gin-health"

/-- `defaultJobKey` from the documented variant. -/
def defaultJobKey : String := "github.com/utrack/gin-health|job"

/-- `NewStream` from the documented variant (textually identical to the one
in `ghealth.go`). -/
def NewStream (newStatsDSink : String → String → Option GoError)
    (statsd appname serversink : String) : NewStreamResult :=
  let stream := Stream.new
  let r1 : NewStreamResult :=
    if statsd ≠ "" then
      match newStatsDSink statsd appname with
      | some err =>
        { stream := (stream.addSink Sink.writerStdout).eventErr "new_statsd_sink" err,
          statsdAttempted := true,
          stdout := ["HEALTH: Adding stdout health sink..."] }
      | none =>
        { stream := stream.addSink (Sink.statsd statsd appname),
          statsdAttempted := true,
          stdout := ["HEALTH: Adding statsd health sink..."] }
    else
      { stream := stream.addSink Sink.writerStdout,
        statsdAttempted := false,
        stdout := ["HEALTH: Adding stdout health sink..."] }
  if serversink ≠ "" then
    { stream := r1.stream.addSink
        (Sink.jsonPolling timeMinute (5 * timeMinute) (some serversink)),
      statsdAttempted := r1.statsdAttempted,
      stdout := r1.stdout ++ ["HEALTH: Adding json health sink..."] }
  else r1

/-- The deferred `recover()` block of the documented variant's `Health`:
on a normal outcome it does nothing; on a panic with an `error`-typed value
it emits `stream.EventErr("Panic at <URI>", rval.(error))`, writes status
500 (`http.StatusInternalServerError`) and swallows the panic; on a panic
with any other value the unguarded `rval.(error)` assertion itself panics
(before the event is emitted or the status written). Returns the outcome
together with the stream (which accumulates the emitted event). -/
def recoverBlock (stream : Stream) (o : Outcome) : Outcome × Stream :=
  match o with
  | .normal c => (.normal c, stream)
  | .panicked c rval =>
    match rval with
    | GoVal.err e =>
      (.normal { c with status := some 500 },
       stream.eventErr ("Panic at " ++ c.requestURI) e)
    | _ => (.panicked c GoVal.typeAssertionError, stream)

/-- `Health` from the documented variant: set the stream under the fixed key,
hand control to the next handler, and run the deferred recovery block on the
way out. -/
def Health (stream : Stream) (next : Ctx → Outcome) (c : Ctx) : Outcome × Stream :=
  recoverBlock stream (next (c.set defaultStreamKey (GoVal.stream stream)))

/-- `Job` from the documented variant (textually identical to the one in
`ghealth.go`). -/
def Job (now : Int) (c : Ctx) (name : String) : Except GoVal (HealthJob × Ctx) :=
  match c.get defaultStreamKey with
  | none => .error (GoVal.str ("Key " ++ defaultStreamKey ++ " does not exist"))
  | some (GoVal.stream s) =>
    .ok ({ stream := s, name := name }, c.set defaultJobKey (GoVal.time now))
  | some _ => .error GoVal.typeAssertionError

/-- `TimeSince` from the documented variant (textually identical to the one
in `ghealth.go`). -/
def TimeSince (now : Int) (t : Int) : Int := now - t

end GhealthDoc

/-- A StatsD-sink constructor that always fails, modelling an unreachable
address (example input for the theorems below). -/
def failingStatsdCtor : String → String → Option GoError :=
  fun _ _ => some { msg := "dial udp: connection refused" }

/-- A StatsD-sink constructor that always succeeds (example input). -/
def okStatsdCtor : String → String → Option GoError :=
  fun _ _ => none

/-- An example request context with an empty key store. -/
def ctxEx : Ctx := { keys := [], requestURI := "/boom", status := none }

/-- An example stream with a single stdout sink. -/
def streamEx : Stream := Stream.new.addSink Sink.writerStdout

/-- An example downstream handler that panics with an `error` value. -/
def panicNextErr : Ctx → Outcome :=
  fun c => Outcome.panicked c (GoVal.err { msg := "runtime error: nil dereference" })

/-- An example downstream handler that returns normally. -/
def normalNext : Ctx → Outcome :=
  fun c => Outcome.normal c

/-- An example context holding a stream under the stream key. -/
def ctxWithStream : Ctx :=
  { keys := [(Ghealth.defaultStreamKey, GoVal.stream streamEx)],
    requestURI := "/job", status := none }

/-- An example context holding a non-stream value under the stream key. -/
def ctxWithBadVal : Ctx :=
  { keys := [(Ghealth.defaultStreamKey, GoVal.str "not a stream")],
    requestURI := "/job", status := none }

/-- C1: when the StatsD address is non-empty and the StatsD-sink constructor
fails, `NewStream` attaches the stdout writer sink as fallback and emits
exactly one error event, named `new_statsd_sink` and carrying the failure
reason, on the returned stream. No error is returned to the caller: the
(total) function returns a `NewStreamResult` on every input. -/
theorem newStream_statsd_failure_fallback
    (ctor : String → String → Option GoError)
    (statsd appname serversink : String) (e : GoError)
    (hne : statsd ≠ "") (hf : ctor statsd appname = some e) :
    Sink.writerStdout ∈ (Ghealth.NewStream ctor statsd appname serversink).stream.sinks ∧
    (Ghealth.NewStream ctor statsd appname serversink).stream.events
      = [{ name := "new_statsd_sink", err := e }] := by
  unfold Ghealth.NewStream
  simp only [hne, if_pos, hf, ite_not]
  by_cases hs : serversink = "" <;>
    simp [hs, Stream.addSink, Stream.eventErr, Stream.new]

/-- Witness for C1 at a concrete unreachable address. -/
theorem newStream_statsd_failure_fallback_witness :
    Sink.writerStdout
      ∈ (Ghealth.NewStream failingStatsdCtor "10.0.0.1:8125" "myapp" "").stream.sinks ∧
    (Ghealth.NewStream failingStatsdCtor "10.0.0.1:8125" "myapp" "").stream.events
      = [{ name := "new_statsd_sink", err := { msg := "dial udp: connection refused" } }] :=
  newStream_statsd_failure_fallback failingStatsdCtor "10.0.0.1:8125" "myapp" ""
    { msg := "dial udp: connection refused" } (by decide) rfl

/-- C2: sink selection in `NewStream`. If the StatsD address is empty, the
stdout writer sink is the only non-JSON sink attached (the JSON sink is
additive, see C3) and the StatsD-sink constructor is never invoked; if the
StatsD address is non-empty and construction succeeds, the StatsD sink is
the only non-JSON sink attached — in particular no stdout writer sink. -/
theorem newStream_sink_selection
    (ctor : String → String → Option GoError)
    (statsd appname serversink : String) :
    (statsd = "" →
      ((Ghealth.NewStream ctor statsd appname serversink).stream.sinks.filter
          (fun k => !k.isJsonPolling)) = [Sink.writerStdout] ∧
      (Ghealth.NewStream ctor statsd appname serversink).statsdAttempted = false) ∧
    (statsd ≠ "" → ctor statsd appname = none →
      ((Ghealth.NewStream ctor statsd appname serversink).stream.sinks.filter
          (fun k => !k.isJsonPolling)) = [Sink.statsd statsd appname]) := by
  constructor
  · intro h0
    unfold Ghealth.NewStream
    by_cases hs : serversink = "" <;>
      simp [h0, hs, Stream.addSink, Stream.new, Sink.isJsonPolling]
  · intro h0 hok
    unfold Ghealth.NewStream
    simp only [h0, if_pos, hok, ite_not]
    by_cases hs : serversink = "" <;>
      simp [h0, hs, Stream.addSink, Stream.new, Sink.isJsonPolling]

/-- Witness for C2: empty address with a JSON sink requested, and a
successful StatsD construction at a concrete address. -/
theorem newStream_sink_selection_witness :
    (((Ghealth.NewStream okStatsdCtor "" "" "127.0.0.1:5020").stream.sinks.filter
        (fun k => !k.isJsonPolling)) = [Sink.writerStdout] ∧
      (Ghealth.NewStream okStatsdCtor "" "" "127.0.0.1:5020").statsdAttempted = false) ∧
    ((Ghealth.NewStream okStatsdCtor "10.0.0.1:8125" "myapp" "").stream.sinks.filter
        (fun k => !k.isJsonPolling)) = [Sink.statsd "10.0.0.1:8125" "myapp"] :=
  ⟨(newStream_sink_selection okStatsdCtor "" "" "127.0.0.1:5020").1 rfl,
   (newStream_sink_selection okStatsdCtor "10.0.0.1:8125" "myapp" "").2 (by decide) rfl⟩

/-- C3: when the JSON bind address is non-empty, `NewStream` additionally
attaches a JSON polling sink with poll granularity `time.Minute` and
retained window `5 * time.Minute`, whose HTTP server has been started on
that bind address by the time `NewStream` returns (its `serverAddr` field is
set in the returned stream); the sinks chosen by the StatsD branch, the
emitted events and the attempted flag are exactly those of the same call
with no JSON sink requested, for every StatsD outcome. -/
theorem newStream_json_sink_additive
    (ctor : String → String → Option GoError)
    (statsd appname serversink : String) (h : serversink ≠ "") :
    (Ghealth.NewStream ctor statsd appname serversink).stream.sinks
      = (Ghealth.NewStream ctor statsd appname "").stream.sinks
        ++ [Sink.jsonPolling timeMinute (5 * timeMinute) (some serversink)] ∧
    (Ghealth.NewStream ctor statsd appname serversink).stream.events
      = (Ghealth.NewStream ctor statsd appname "").stream.events ∧
    (Ghealth.NewStream ctor statsd appname serversink).statsdAttempted
      = (Ghealth.NewStream ctor statsd appname "").statsdAttempted := by
  unfold Ghealth.NewStream
  simp [h, Stream.addSink]

/-- Witness for C3 at a concrete bind address, with a failing StatsD
constructor to show independence from the StatsD outcome. -/
theorem newStream_json_sink_additive_witness :
    (Ghealth.NewStream failingStatsdCtor "10.0.0.1:8125" "myapp" "127.0.0.1:5020").stream.sinks
      = (Ghealth.NewStream failingStatsdCtor "10.0.0.1:8125" "myapp" "").stream.sinks
        ++ [Sink.jsonPolling timeMinute (5 * timeMinute) (some "127.0.0.1:5020")] ∧
    (Ghealth.NewStream failingStatsdCtor "10.0.0.1:8125" "myapp" "127.0.0.1:5020").stream.events
      = (Ghealth.NewStream failingStatsdCtor "10.0.0.1:8125" "myapp" "").stream.events ∧
    (Ghealth.NewStream failingStatsdCtor "10.0.0.1:8125" "myapp" "127.0.0.1:5020").statsdAttempted
      = (Ghealth.NewStream failingStatsdCtor "10.0.0.1:8125" "myapp" "").statsdAttempted :=
  newStream_json_sink_additive failingStatsdCtor "10.0.0.1:8125" "myapp" "127.0.0.1:5020"
    (by decide)

/-- C4: in the recovery-enabled variant, when downstream handling panics
with an `error`-typed value `e`, `Health` emits exactly one error event on
the stream, named with the failing request's URI and carrying `e`, sets the
response status to 500 and returns normally (the panic is not re-raised);
when the panicked value is not `error`-typed, the unguarded `rval.(error)`
assertion itself panics with a type-assertion error (no event, no status). -/
theorem healthDoc_recovers_panic
    (stream : Stream) (next : Ctx → Outcome) (c c' : Ctx) (rv : GoVal)
    (h : next (c.set GhealthDoc.defaultStreamKey (GoVal.stream stream))
          = Outcome.panicked c' rv) :
    (∀ e, rv = GoVal.err e →
      GhealthDoc.Health stream next c
        = (Outcome.normal { c' with status := some 500 },
           stream.eventErr ("Panic at " ++ c'.requestURI) e)) ∧
    ((∀ e, rv ≠ GoVal.err e) →
      GhealthDoc.Health stream next c
        = (Outcome.panicked c' GoVal.typeAssertionError, stream)) := by
  constructor
  · intro e he
    subst he
    unfold GhealthDoc.Health
    rw [h]
    rfl
  · intro hne
    unfold GhealthDoc.Health
    rw [h]
    cases rv with
    | err e => exact absurd rfl (hne e)
    | stream s => rfl
    | time t => rfl
    | str s => rfl
    | typeAssertionError => rfl

/-- Witness for C4: a concrete handler that panics with an `error` value. -/
theorem healthDoc_recovers_panic_witness :
    GhealthDoc.Health streamEx panicNextErr ctxEx
      = (Outcome.normal
          { ctxEx.set GhealthDoc.defaultStreamKey (GoVal.stream streamEx) with
            status := some 500 },
         streamEx.eventErr ("Panic at " ++ ctxEx.requestURI)
           { msg := "runtime error: nil dereference" }) :=
  (healthDoc_recovers_panic streamEx panicNextErr ctxEx
      (ctxEx.set GhealthDoc.defaultStreamKey (GoVal.stream streamEx))
      (GoVal.err { msg := "runtime error: nil dereference" }) rfl).1
    { msg := "runtime error: nil dereference" } rfl

/-- C5: when no value is bound under the fixed stream key, `Job` panics
through `c.MustGet` with the key-lookup failure (a string panic value) and
never returns a job. -/
theorem job_missing_stream_panics
    (now : Int) (c : Ctx) (name : String)
    (h : c.get Ghealth.defaultStreamKey = none) :
    Ghealth.Job now c name
      = Except.error
          (GoVal.str ("Key " ++ Ghealth.defaultStreamKey ++ " does not exist")) ∧
    ∀ (jb : HealthJob) (c' : Ctx), Ghealth.Job now c name ≠ Except.ok (jb, c') := by
  have hj : Ghealth.Job now c name
      = Except.error
          (GoVal.str ("Key " ++ Ghealth.defaultStreamKey ++ " does not exist")) := by
    unfold Ghealth.Job
    rw [h]
  exact ⟨hj, fun jb c' hok => by rw [hj] at hok; exact Except.noConfusion hok⟩

/-- Witness for C5 on a context with an empty key store. -/
theorem job_missing_stream_panics_witness :
    Ghealth.Job 0 ctxEx "some_route"
      = Except.error
          (GoVal.str ("Key " ++ Ghealth.defaultStreamKey ++ " does not exist")) ∧
    ∀ (jb : HealthJob) (c' : Ctx), Ghealth.Job 0 ctxEx "some_route" ≠ Except.ok (jb, c') :=
  job_missing_stream_panics 0 ctxEx "some_route" rfl

/-- C6: when a stream `s` is bound under the fixed stream key, `Job` returns
the job created from `s` with the given name together with the context in
which the current wall-clock time has been recorded under the fixed job key,
and that time is retrievable under the job key afterwards. -/
theorem job_with_stream_succeeds
    (now : Int) (c : Ctx) (name : String) (s : Stream)
    (h : c.get Ghealth.defaultStreamKey = some (GoVal.stream s)) :
    Ghealth.Job now c name
      = Except.ok ({ stream := s, name := name },
          c.set Ghealth.defaultJobKey (GoVal.time now)) ∧
    (c.set Ghealth.defaultJobKey (GoVal.time now)).get Ghealth.defaultJobKey
      = some (GoVal.time now) := by
  constructor
  · unfold Ghealth.Job
    rw [h]
  · simp [Ctx.get, Ctx.set, List.lookup]

/-- Witness for C6 on a context holding a concrete stream. -/
theorem job_with_stream_succeeds_witness :
    Ghealth.Job 12345 ctxWithStream "some_route"
      = Except.ok ({ stream := streamEx, name := "some_route" },
          ctxWithStream.set Ghealth.defaultJobKey (GoVal.time 12345)) ∧
    (ctxWithStream.set Ghealth.defaultJobKey (GoVal.time 12345)).get Ghealth.defaultJobKey
      = some (GoVal.time 12345) :=
  job_with_stream_succeeds 12345 ctxWithStream "some_route" streamEx rfl

/-- C7: in both middleware variants the stream reference is stored under the
fixed stream key before control is handed to the next handler: each variant
invokes `next` exactly on `c.set defaultStreamKey stream`, and on that
context the lookup under the stream key already yields the stream. -/
theorem health_sets_stream_before_next
    (s : Stream) (next : Ctx → Outcome) (c : Ctx) :
    Ghealth.Health s next c
      = next (c.set Ghealth.defaultStreamKey (GoVal.stream s)) ∧
    GhealthDoc.Health s next c
      = GhealthDoc.recoverBlock s
          (next (c.set GhealthDoc.defaultStreamKey (GoVal.stream s))) ∧
    (c.set Ghealth.defaultStreamKey (GoVal.stream s)).get Ghealth.defaultStreamKey
      = some (GoVal.stream s) := by
  refine ⟨rfl, rfl, ?_⟩
  simp [Ctx.get, Ctx.set, List.lookup]

/-- C8: `TimeSince`, with the clock instant made an explicit argument, is a
pure function of `now` and `t` returning exactly the signed nanosecond
difference `now - t`; the result is negative when `t` lies in the future,
zero when `t` is exactly `now`, and positive when `t` lies in the past — no
validation of `t` restricts these cases. -/
theorem timeSince_elapsed_nanoseconds (now t : Int) :
    Ghealth.TimeSince now t = now - t ∧
    (now < t → Ghealth.TimeSince now t < 0) ∧
    (t = now → Ghealth.TimeSince now t = 0) ∧
    (t < now → 0 < Ghealth.TimeSince now t) := by
  refine ⟨rfl, fun h => ?_, fun h => ?_, fun h => ?_⟩
  · simpa [Ghealth.TimeSince] using Int.sub_neg_of_lt h
  · simp [Ghealth.TimeSince, h]
  · simpa [Ghealth.TimeSince] using Int.sub_pos_of_lt h

/-- Witness for C8 at concrete instants: past, equal and future start
times. -/
theorem timeSince_elapsed_nanoseconds_witness :
    Ghealth.TimeSince 7 3 = 7 - 3 ∧
    Ghealth.TimeSince 3 7 < 0 ∧
    Ghealth.TimeSince 5 5 = 0 ∧
    0 < Ghealth.TimeSince 7 3 :=
  ⟨(timeSince_elapsed_nanoseconds 7 3).1,
   (timeSince_elapsed_nanoseconds 3 7).2.1 (by decide),
   (timeSince_elapsed_nanoseconds 5 5).2.2.1 rfl,
   (timeSince_elapsed_nanoseconds 7 3).2.2.2 (by decide)⟩

/-- C9: the two implementations differ only in middleware recovery: their
`NewStream`, `Job` and `TimeSince` functions are extensionally equal (here
definitionally so, as the embedded sources coincide), and on every request
whose downstream handling returns without panicking the two `Health`
middlewares behave identically — both yield the downstream outcome
unchanged, and the recovery variant leaves the stream untouched. -/
theorem variants_differ_only_in_recovery :
    Ghealth.NewStream = GhealthDoc.NewStream ∧
    Ghealth.Job = GhealthDoc.Job ∧
    Ghealth.TimeSince = GhealthDoc.TimeSince ∧
    ∀ (s : Stream) (next : Ctx → Outcome) (c c'' : Ctx),
      next (c.set Ghealth.defaultStreamKey (GoVal.stream s)) = Outcome.normal c'' →
      Ghealth.Health s next c = Outcome.normal c'' ∧
      GhealthDoc.Health s next c = (Outcome.normal c'', s) := by
  refine ⟨rfl, rfl, rfl, fun s next c c'' h => ⟨h, ?_⟩⟩
  unfold GhealthDoc.Health
  rw [show GhealthDoc.defaultStreamKey = Ghealth.defaultStreamKey from rfl, h]
  rfl

/-- Witness for C9: a concrete non-panicking downstream handler on which
both middleware variants agree. -/
theorem variants_differ_only_in_recovery_witness :
    Ghealth.Health streamEx normalNext ctxEx
      = Outcome.normal (ctxEx.set Ghealth.defaultStreamKey (GoVal.stream streamEx)) ∧
    GhealthDoc.Health streamEx normalNext ctxEx
      = (Outcome.normal (ctxEx.set Ghealth.defaultStreamKey (GoVal.stream streamEx)),
         streamEx) :=
  variants_differ_only_in_recovery.2.2.2 streamEx normalNext ctxEx
    (ctxEx.set Ghealth.defaultStreamKey (GoVal.stream streamEx)) rfl

/-- C10: when the value bound under the fixed stream key is anything other
than a stream, `Job` panics on the unguarded `.(*health.Stream)` assertion
with a type-assertion error — the missing-key case is not the only fatal
path. -/
theorem job_wrong_type_panics
    (now : Int) (c : Ctx) (name : String) (v : GoVal)
    (h : c.get Ghealth.defaultStreamKey = some v)
    (hv : ∀ s, v ≠ GoVal.stream s) :
    Ghealth.Job now c name = Except.error GoVal.typeAssertionError := by
  unfold Ghealth.Job
  rw [h]
  cases v with
  | stream s => exact absurd rfl (hv s)
  | time t => rfl
  | err e => rfl
  | str s => rfl
  | typeAssertionError => rfl

/-- Witness for C10 on a context whose stream key holds a string. -/
theorem job_wrong_type_panics_witness :
    Ghealth.Job 0 ctxWithBadVal "some_route" = Except.error GoVal.typeAssertionError :=
  job_wrong_type_panics 0 ctxWithBadVal "some_route" (GoVal.str "not a stream") rfl
    (fun _ hs => GoVal.noConfusion hs)

end GinHealth
